import Mathlib

/-
Verification of the College-HQ data-collection scripts and profile handler.

Each Python function relevant to the verified properties is shallowly embedded
as an executable Lean definition.  External collaborators (HTTP fetching, HTML
parsing, the key-value store client, JWT verification, the json stdlib parser)
are passed in as function parameters ("oracles"), matching the spec's framing
of them as out-of-scope thin wrappers.  Machine integers do not overflow in any
of the embedded code paths (counts and unit totals are small naturals), so Nat
and Int are used directly.
-/

/-! ## Float-to-Decimal conversion
    from `UniversalDegreeRequirementsScraper._convert_floats_to_decimals`
    (src/Scrapers/degreerequirements_scraper.py lines 714-723; an identical
    copy lives in src/Scrapers/flowchart_scraper.py lines 1272-1281).

    The Python value universe reaching this helper is JSON-like data built
    from dataclasses: atoms (str, int, bool, None, Decimal), dicts and lists.
    A float is carried as its `str(x)` representation, since `Decimal(str(x))`
    is the only use the code makes of the numeric payload. -/

mutual

inductive PyObj where
  | float (rep : String)
  | dec (rep : String)
  | str (v : String)
  | int (v : Int)
  | bool (v : Bool)
  | none
  | dict (entries : PyDict)
  | list (items : PyList)

inductive PyList where
  | nil
  | cons (head : PyObj) (tail : PyList)

inductive PyDict where
  | nil
  | cons (key : String) (value : PyObj) (tail : PyDict)

end

mutual

/-- Embedding of `_convert_floats_to_decimals(self, obj)`: floats become
`Decimal(str(obj))`, dicts and lists recurse, everything else is returned
unchanged. -/
def convert_floats_to_decimals : PyObj → PyObj
  | .float rep => .dec rep
  | .dict entries => .dict (convertDict entries)
  | .list items => .list (convertList items)
  | .dec rep => .dec rep
  | .str v => .str v
  | .int v => .int v
  | .bool v => .bool v
  | .none => .none

/-- Embedding of the list comprehension `[convert(item) for item in obj]`. -/
def convertList : PyList → PyList
  | .nil => .nil
  | .cons x xs => .cons (convert_floats_to_decimals x) (convertList xs)

/-- Embedding of the dict comprehension
`\x7bkey: convert(value) for key, value in obj.items()\x7d`. -/
def convertDict : PyDict → PyDict
  | .nil => .nil
  | .cons k v rest => .cons k (convert_floats_to_decimals v) (convertDict rest)

end

mutual

/-- Does a float occur anywhere in the value? -/
def hasFloat : PyObj → Bool
  | .float _ => true
  | .dict entries => hasFloatDict entries
  | .list items => hasFloatList items
  | _ => false

def hasFloatList : PyList → Bool
  | .nil => false
  | .cons x xs => hasFloat x || hasFloatList xs

def hasFloatDict : PyDict → Bool
  | .nil => false
  | .cons _ v rest => hasFloat v || hasFloatDict rest

end

/-- Keys of an embedded Python dict, in iteration order. -/
def dictKeys : PyDict → List String
  | .nil => []
  | .cons k _ rest => k :: dictKeys rest

/-- Length of an embedded Python list. -/
def pyLen : PyList → Nat
  | .nil => 0
  | .cons _ xs => pyLen xs + 1

mutual

theorem convert_hasFloat : ∀ x : PyObj, hasFloat (convert_floats_to_decimals x) = false
  | .float _ => rfl
  | .dec _ => rfl
  | .str _ => rfl
  | .int _ => rfl
  | .bool _ => rfl
  | .none => rfl
  | .dict entries => by
      simp only [convert_floats_to_decimals, hasFloat]
      exact convert_hasFloatDict entries
  | .list items => by
      simp only [convert_floats_to_decimals, hasFloat]
      exact convert_hasFloatList items

theorem convert_hasFloatList : ∀ l : PyList, hasFloatList (convertList l) = false
  | .nil => rfl
  | .cons x xs => by
      simp only [convertList, hasFloatList, Bool.or_eq_false_iff]
      exact ⟨convert_hasFloat x, convert_hasFloatList xs⟩

theorem convert_hasFloatDict : ∀ d : PyDict, hasFloatDict (convertDict d) = false
  | .nil => rfl
  | .cons k v rest => by
      simp only [convertDict, hasFloatDict, Bool.or_eq_false_iff]
      exact ⟨convert_hasFloat v, convert_hasFloatDict rest⟩

end

mutual

theorem convert_idem : ∀ x : PyObj,
    convert_floats_to_decimals (convert_floats_to_decimals x) = convert_floats_to_decimals x
  | .float _ => rfl
  | .dec _ => rfl
  | .str _ => rfl
  | .int _ => rfl
  | .bool _ => rfl
  | .none => rfl
  | .dict entries => by
      simp only [convert_floats_to_decimals]
      exact congrArg PyObj.dict (convert_idemDict entries)
  | .list items => by
      simp only [convert_floats_to_decimals]
      exact congrArg PyObj.list (convert_idemList items)

theorem convert_idemList : ∀ l : PyList, convertList (convertList l) = convertList l
  | .nil => rfl
  | .cons x xs => by
      simp only [convertList]
      exact congrArg₂ PyList.cons (convert_idem x) (convert_idemList xs)

theorem convert_idemDict : ∀ d : PyDict, convertDict (convertDict d) = convertDict d
  | .nil => rfl
  | .cons k v rest => by
      simp only [convertDict]
      rw [convert_idem v, convert_idemDict rest]

end

theorem convert_keys : ∀ d : PyDict, dictKeys (convertDict d) = dictKeys d
  | .nil => rfl
  | .cons k v rest => by
      simp only [convertDict, dictKeys]
      exact congrArg (k :: ·) (convert_keys rest)

theorem convert_len : ∀ l : PyList, pyLen (convertList l) = pyLen l
  | .nil => rfl
  | .cons x xs => by
      simp only [convertList, pyLen]
      exact congrArg (· + 1) (convert_len xs)

/-- C10: `_convert_floats_to_decimals` returns a value containing no float
anywhere; every float leaf becomes its Decimal counterpart `Decimal(str(x))`;
dict key sequences and list lengths (hence order) are preserved; every
non-float, non-dict, non-list value is returned unchanged; and the function is
idempotent. -/
theorem convert_floats_full (x : PyObj) :
    hasFloat (convert_floats_to_decimals x) = false ∧
    convert_floats_to_decimals (convert_floats_to_decimals x) = convert_floats_to_decimals x ∧
    (∀ rep, convert_floats_to_decimals (.float rep) = .dec rep) ∧
    (∀ d, dictKeys (convertDict d) = dictKeys d) ∧
    (∀ l, pyLen (convertList l) = pyLen l) ∧
    (∀ rep, convert_floats_to_decimals (.dec rep) = .dec rep) ∧
    (∀ v, convert_floats_to_decimals (.str v) = .str v) ∧
    (∀ v, convert_floats_to_decimals (.int v) = .int v) ∧
    (∀ v, convert_floats_to_decimals (.bool v) = .bool v) ∧
    convert_floats_to_decimals .none = .none :=
  ⟨convert_hasFloat x, convert_idem x, fun _ => rfl, convert_keys, convert_len,
   fun _ => rfl, fun _ => rfl, fun _ => rfl, fun _ => rfl, rfl⟩

/-! ## Cal Poly course-catalog scraper
    from `CalPolyCourseScraper` (src/Scrapers/calpoly_scraper.py).

    Network fetching, HTML parsing and the store client are external
    collaborators; they enter as oracle parameters:
    `convert` stands for `course_to_dynamodb_item` (which may raise),
    `putOk` for whether `table.put_item` succeeds, `getPage` for
    `get_course_page` and `extract` for `extract_courses_from_page`. -/

/-- Dataclass `CourseInfo` (src/Scrapers/calpoly_scraper.py lines 32-41). -/
structure CourseInfo where
  code : String
  name : String
  units : Nat
  description : String
  prerequisites : List String
  department : String
  difficulty : String

/-- Loop body of `save_courses_to_dynamodb` (lines 341-367), carrying the
`success_count` and `error_count` accumulators.  In each iteration exactly one
counter is incremented by 1: a raise in `course_to_dynamodb_item` or in
`put_item` lands in one of the two `except` arms (`error_count += 1`) and the
loop continues; otherwise `success_count += 1`.  The intermediate `get_item`
existence probe only drives a debug log and swallows its own exceptions, so it
does not affect the tally. -/
def saveLoop {Item : Type} (convert : CourseInfo → Option Item) (putOk : Item → Bool) :
    List CourseInfo → Nat → Nat → Nat × Nat
  | [], s, e => (s, e)
  | c :: cs, s, e =>
    match convert c with
    | Option.none => saveLoop convert putOk cs s (e + 1)
    | some it =>
      if putOk it then saveLoop convert putOk cs (s + 1) e
      else saveLoop convert putOk cs s (e + 1)

/-- `save_courses_to_dynamodb(self, courses)` (lines 334-373): returns the
pair `(success_count, error_count)`. -/
def save_courses_to_dynamodb {Item : Type} (convert : CourseInfo → Option Item)
    (putOk : Item → Bool) (courses : List CourseInfo) : Nat × Nat :=
  saveLoop convert putOk courses 0 0

/-- `scrape_department(self, department)` (lines 375-400): page fetch failure
or an empty extraction yields `([], False)`; otherwise `(courses, True)`. -/
def scrape_department {Page : Type} (getPage : String → Option Page)
    (extract : Page → String → List CourseInfo) (dept : String) :
    List CourseInfo × Bool :=
  match getPage dept with
  | Option.none => ([], false)
  | some p =>
    let courses := extract p dept
    if courses.isEmpty then ([], false) else (courses, true)

/-- Loop of `scrape_all_departments` (lines 419-433), accumulating
`all_courses`, `successful_departments` and `failed_departments` in input
order.  The branch condition mirrors `if success and courses:`. -/
def scrapeLoop {Page : Type} (getPage : String → Option Page)
    (extract : Page → String → List CourseInfo) :
    List String → List CourseInfo × List String × List String
  | [] => ([], [], [])
  | dept :: rest =>
    let courses := (scrape_department getPage extract dept).1
    let success := (scrape_department getPage extract dept).2
    let r := scrapeLoop getPage extract rest
    if success && !courses.isEmpty then (courses ++ r.1, dept :: r.2.1, r.2.2)
    else (r.1, r.2.1, dept :: r.2.2)

/-- Result dict of `scrape_all_departments` (lines 409-415). -/
structure ScrapeResults where
  total_courses : Nat
  successful_departments : List String
  failed_departments : List String
  save_success : Nat
  save_errors : Nat
deriving DecidableEq, Repr

/-- `scrape_all_departments(self, departments)` (lines 402-446) on an explicit
department list: runs the per-department loop, sets `total_courses` to
`len(all_courses)`, and saves all collected courses (the save step is skipped,
leaving both tallies 0, when no course was collected). -/
def scrape_all_departments {Page Item : Type} (getPage : String → Option Page)
    (extract : Page → String → List CourseInfo)
    (convert : CourseInfo → Option Item) (putOk : Item → Bool)
    (departments : List String) : ScrapeResults :=
  let r := scrapeLoop getPage extract departments
  let tally :=
    if r.1.isEmpty then ((0 : Nat), (0 : Nat))
    else save_courses_to_dynamodb convert putOk r.1
  { total_courses := r.1.length
    successful_departments := r.2.1
    failed_departments := r.2.2
    save_success := tally.1
    save_errors := tally.2 }

/-- Whether one department counts as successful: `scrape_department` returned
`True` together with a non-empty course list. -/
def deptOk {Page : Type} (getPage : String → Option Page)
    (extract : Page → String → List CourseInfo) (dept : String) : Bool :=
  (scrape_department getPage extract dept).2 &&
    !(scrape_department getPage extract dept).1.isEmpty

/-- Outcome of one loop iteration for a course: item conversion succeeded and
the store write succeeded. -/
def okCourse {Item : Type} (convert : CourseInfo → Option Item) (putOk : Item → Bool)
    (c : CourseInfo) : Bool :=
  match convert c with
  | Option.none => false
  | some it => putOk it

theorem saveLoop_closed {Item : Type} (convert : CourseInfo → Option Item)
    (putOk : Item → Bool) (courses : List CourseInfo) : ∀ s e : Nat,
    saveLoop convert putOk courses s e =
      (s + (courses.filter (okCourse convert putOk)).length,
       e + (courses.filter (fun c => !okCourse convert putOk c)).length) := by
  induction courses with
  | nil => intro s e; simp [saveLoop]
  | cons c cs ih =>
    intro s e
    cases hconv : convert c with
    | none =>
      have hok : okCourse convert putOk c = false := by simp [okCourse, hconv]
      simp only [saveLoop, hconv]
      rw [ih s (e + 1)]
      simp only [List.filter_cons, hok, Bool.false_eq_true, if_false, Bool.not_false,
        if_true, List.length_cons, Prod.mk.injEq, true_and, and_true]
      omega
    | some it =>
      by_cases hput : putOk it = true
      · have hok : okCourse convert putOk c = true := by simp [okCourse, hconv, hput]
        simp only [saveLoop, hconv, hput, if_true]
        rw [ih (s + 1) e]
        simp only [List.filter_cons, hok, if_true, Bool.not_true, Bool.false_eq_true,
          if_false, List.length_cons, Prod.mk.injEq, true_and, and_true]
        omega
      · simp only [Bool.not_eq_true] at hput
        have hok : okCourse convert putOk c = false := by simp [okCourse, hconv, hput]
        simp only [saveLoop, hconv, hput, Bool.false_eq_true, if_false]
        rw [ih s (e + 1)]
        simp only [List.filter_cons, hok, Bool.false_eq_true, if_false, Bool.not_false,
          if_true, List.length_cons, Prod.mk.injEq, true_and, and_true]
        omega

theorem save_closed {Item : Type} (convert : CourseInfo → Option Item)
    (putOk : Item → Bool) (courses : List CourseInfo) :
    save_courses_to_dynamodb convert putOk courses =
      ((courses.filter (okCourse convert putOk)).length,
       (courses.filter (fun c => !okCourse convert putOk c)).length) := by
  unfold save_courses_to_dynamodb
  rw [saveLoop_closed]
  simp

theorem filter_split_length {α : Type} (p : α → Bool) (l : List α) :
    (l.filter p).length + (l.filter (fun a => !p a)).length = l.length := by
  induction l with
  | nil => simp
  | cons a l ih =>
    cases ha : p a <;>
      simp only [List.filter_cons, ha, Bool.not_true, Bool.not_false, if_true, if_false,
        Bool.false_eq_true, Bool.true_eq_false, List.length_cons] <;> omega


/-- C6: `save_courses_to_dynamodb` returns `(success_count, error_count)` with
`success_count + error_count` equal to the length of the input list and both
counts non-negative; and when one course `c` fails (its item conversion raises
or its store write fails), the run over `pre ++ [c] ++ post` has exactly one
more error than, and the same success count as, the run over `pre ++ post`:
the failure costs exactly one error tick and the remaining courses are still
processed. -/
theorem save_courses_tally {Item : Type} (convert : CourseInfo → Option Item)
    (putOk : Item → Bool) (courses : List CourseInfo) :
    (save_courses_to_dynamodb convert putOk courses).1 +
        (save_courses_to_dynamodb convert putOk courses).2 = courses.length ∧
    0 ≤ (save_courses_to_dynamodb convert putOk courses).1 ∧
    0 ≤ (save_courses_to_dynamodb convert putOk courses).2 ∧
    (∀ pre c post,
      courses = pre ++ c :: post →
      (convert c = Option.none ∨ ∃ it, convert c = some it ∧ putOk it = false) →
      save_courses_to_dynamodb convert putOk courses =
        ((save_courses_to_dynamodb convert putOk (pre ++ post)).1,
         (save_courses_to_dynamodb convert putOk (pre ++ post)).2 + 1)) := by
  refine ⟨?_, Nat.zero_le _, Nat.zero_le _, ?_⟩
  · rw [save_closed]
    exact filter_split_length (okCourse convert putOk) courses
  · intro pre c post hsplit hfail
    subst hsplit
    have hok : okCourse convert putOk c = false := by
      rcases hfail with h | ⟨it, hit, hput⟩
      · simp [okCourse, h]
      · simp [okCourse, hit, hput]
    rw [save_closed, save_closed]
    simp only [List.filter_append, List.filter_cons, hok, Bool.false_eq_true, if_false,
      Bool.not_false, if_true, List.length_append, List.length_cons, Prod.mk.injEq,
      true_and, and_true]
    omega

/-- Witness for the conditional clause of `save_courses_tally` at a concrete
run: two convertible courses around one whose item conversion fails. -/
theorem save_courses_tally_witness :
    let cA : CourseInfo := ⟨"CSC 101", "Intro", 4, "", [], "CSC", "Beginner"⟩
    let cB : CourseInfo := ⟨"CSC 225", "Bad", 4, "", [], "CSC", "Beginner"⟩
    let conv : CourseInfo → Option Unit :=
      fun c => if c.name = "Bad" then Option.none else some ()
    let putOk : Unit → Bool := fun _ => true
    save_courses_to_dynamodb conv putOk [cA, cB, cA] =
      ((save_courses_to_dynamodb conv putOk [cA, cA]).1,
       (save_courses_to_dynamodb conv putOk [cA, cA]).2 + 1) := by
  intro cA cB conv putOk
  exact (save_courses_tally conv putOk [cA, cB, cA]).2.2.2 [cA] cB [cA] rfl
    (Or.inl rfl)

theorem scrapeLoop_spec {Page : Type} (getPage : String → Option Page)
    (extract : Page → String → List CourseInfo) : ∀ deps : List String,
    scrapeLoop getPage extract deps =
      (((deps.filter (deptOk getPage extract)).map
          (fun d => (scrape_department getPage extract d).1)).flatten,
       deps.filter (deptOk getPage extract),
       deps.filter (fun d => !deptOk getPage extract d)) := by
  intro deps
  induction deps with
  | nil => simp [scrapeLoop]
  | cons dept rest ih =>
    simp only [scrapeLoop]
    rw [show ((scrape_department getPage extract dept).2 &&
        !(scrape_department getPage extract dept).1.isEmpty) =
        deptOk getPage extract dept from rfl]
    rw [ih]
    cases hd : deptOk getPage extract dept <;>
      simp [List.filter_cons, hd]

/-- C7: in `scrape_all_departments`, the successful and failed department
lists are the sublists of the requested departments passing (respectively
failing) the per-department scrape, in input order — so every requested
department lands in exactly one of the two lists and a failure for one
department leaves the processing of the others untouched — and
`total_courses` is the total number of courses extracted from the successful
departments. -/
theorem scrape_all_departments_partition {Page Item : Type}
    (getPage : String → Option Page) (extract : Page → String → List CourseInfo)
    (convert : CourseInfo → Option Item) (putOk : Item → Bool)
    (departments : List String) :
    (scrape_all_departments getPage extract convert putOk departments).successful_departments =
        departments.filter (deptOk getPage extract) ∧
    (scrape_all_departments getPage extract convert putOk departments).failed_departments =
        departments.filter (fun d => !deptOk getPage extract d) ∧
    (scrape_all_departments getPage extract convert putOk departments).successful_departments.length +
        (scrape_all_departments getPage extract convert putOk departments).failed_departments.length =
        departments.length ∧
    (scrape_all_departments getPage extract convert putOk departments).total_courses =
        ((departments.filter (deptOk getPage extract)).map
            (fun d => (scrape_department getPage extract d).1.length)).sum := by
  unfold scrape_all_departments
  rw [scrapeLoop_spec]
  refine ⟨rfl, rfl, ?_, ?_⟩
  · exact filter_split_length (deptOk getPage extract) departments
  · simp only [List.length_flatten, List.map_map]
    rfl

/-! ## User-profile Lambda handler
    from src/lambda-functions/user-profile-handler.py.

    The JWT verification pipeline (JWKS fetch, key lookup, `jwt.decode`) is an
    external collaborator and enters as a `verify` oracle returning the decoded
    claims on success and nothing on any failure (every failure inside
    `extract_user_from_token` is caught and turned into `None`).  The json
    stdlib parser enters as a `parse` oracle; `json.dumps` is embedded as a
    plain serializer `json_dumps` over the JSON value type (string escaping
    inside atoms is not modeled).  The users table is explicit state, and each
    datastore call is logged in a trace so that "no read or write happened"
    is a provable statement. -/

/-- JSON-like values stored in records and response bodies. -/
inductive DVal where
  | null
  | b (v : Bool)
  | i (v : Int)
  | s (v : String)
  | arr (elems : List DVal)
  | obj (entries : List (String × DVal))

/-- Python exceptions that can escape the embedded handler bodies. -/
inductive PyErr where
  | nameError
  | valueError
  | typeError
deriving DecidableEq, Repr

/-- Association-list lookup, embedding `dict.get` (dict keys are unique). -/
def lookupA {α : Type} (k : String) : List (String × α) → Option α
  | [] => Option.none
  | (k2, v) :: rest => if k2 = k then some v else lookupA k rest

mutual

def json_dumps : DVal → String
  | .null => "null"
  | .b true => "true"
  | .b false => "false"
  | .i v => toString v
  | .s v => "\"" ++ v ++ "\""
  | .arr elems => "[" ++ dumpsElems elems ++ "]"
  | .obj entries => "\x7b" ++ dumpsEntries entries ++ "\x7d"

def dumpsElems : List DVal → String
  | [] => ""
  | [x] => json_dumps x
  | x :: y :: rest => json_dumps x ++ "," ++ dumpsElems (y :: rest)

def dumpsEntries : List (String × DVal) → String
  | [] => ""
  | [(k, v)] => "\"" ++ k ++ "\":" ++ json_dumps v
  | (k, v) :: p :: rest => "\"" ++ k ++ "\":" ++ json_dumps v ++ "," ++ dumpsEntries (p :: rest)

end

/-- One record of the users table: attribute name to value. -/
def UserRec : Type := List (String × DVal)

/-- The users table, keyed by `userId`. -/
def Store : Type := List (String × UserRec)

/-- Trace entry for one DynamoDB call. -/
inductive DbOp where
  | getItem (key : String)
  | putItem (key : String)
  | updateItem (key : String)
deriving DecidableEq, Repr

/-- Decoded Cognito token payload; `sub` is always present in a verified
Cognito access/id token, the other claims are optional. -/
structure Claims where
  sub : String
  email : Option String
  given_name : Option String
  family_name : Option String

/-- Incoming request event.  `event.get(k)` is `Option.none` when key `k` is
absent; `path` defaults to `""`, `headers` to the empty dict and `body` to
`"\x7b\x7d"` at their use sites, exactly as in the Python `event.get` calls. -/
structure Event where
  httpMethod : Option String
  path : Option String
  headers : Option (List (String × String))
  body : Option String

/-- CORS headers of `create_response` (lines 286-291). -/
def cors_headers : List (String × String) :=
  [("Content-Type", "application/json"),
   ("Access-Control-Allow-Origin", "*"),
   ("Access-Control-Allow-Methods", "GET, POST, PUT, DELETE, OPTIONS"),
   ("Access-Control-Allow-Headers", "Content-Type, Authorization")]

/-- Lambda response dict (line 284-293). -/
structure Response where
  statusCode : Int
  headers : List (String × String)
  body : String

/-- `create_response(status_code, body)` (lines 280-293): the body dict is
serialized with `json.dumps`. -/
def create_response (status_code : Int) (body : DVal) : Response :=
  { statusCode := status_code, headers := cors_headers, body := json_dumps body }

/-- Is `p` a prefix of the second list? (embeds `str.startswith`). -/
def listPre : List Char → List Char → Bool
  | [], _ => true
  | _ :: _, [] => false
  | p :: ps, c :: cs => p = c && listPre ps cs

/-- Does `sub` occur as a contiguous substring? (embeds Python `in` on
strings). -/
def listContains (sub : List Char) : List Char → Bool
  | [] => listPre sub []
  | c :: cs => listPre sub (c :: cs) || listContains sub cs

/-- `s.startswith(p)`. -/
def strStartsWith (s p : String) : Bool := listPre p.data s.data

/-- `sub in s`. -/
def strContains (s sub : String) : Bool := listContains sub.data s.data

/-- `s.split(' ')`: split on every single space, keeping empty parts. -/
def splitSp : List Char → List (List Char)
  | [] => [[]]
  | c :: cs =>
    if c = ' ' then [] :: splitSp cs
    else
      match splitSp cs with
      | [] => [[c]]
      | w :: ws => (c :: w) :: ws

/-- `auth_header.split(' ')[1]` (line 62).  The caller has checked that the
header starts with `"Bearer "`, so the split has at least two parts and the
default is unreachable. -/
def tokenOf (auth : String) : String :=
  String.mk ((splitSp auth.data).getD 1 [])

/-- `headers.get('Authorization') or headers.get('authorization')` (line 57)
with Python `or` semantics: a `None` or empty-string left operand falls
through to the right operand. -/
def get_auth_header (headers : List (String × String)) : Option String :=
  match lookupA "Authorization" headers with
  | some v => if v = "" then lookupA "authorization" headers else some v
  | Option.none => lookupA "authorization" headers

/-- `extract_user_from_token(event)` (lines 50-99).  The token check
`if not auth_header or not auth_header.startswith('Bearer ')` rejects a
missing, empty or non-Bearer header; otherwise the token
`auth_header.split(' ')[1]` is handed to the verification pipeline, whose
every failure mode (JWKS fetch error, unknown kid, signature/audience/issuer
rejection) returns `None` through the `except` arms. -/
def extract_user_from_token (verify : String → Option Claims) (event : Event) :
    Option Claims :=
  match get_auth_header (event.headers.getD []) with
  | Option.none => Option.none
  | some auth =>
    if auth = "" || !strStartsWith auth "Bearer " then Option.none
    else verify (tokenOf auth)

/-- Numeric value of a decimal-digit string, as `int()` computes it. -/
def digitsVal (v : String) : Option Int :=
  if v.data ≠ [] ∧ v.data.all Char.isDigit then
    some (v.data.foldl (fun a c => 10 * a + (Int.ofNat c.toNat - 48)) 0)
  else Option.none

/-- Builtin `float(x)` on a stored attribute value.  Numeric values keep
their value (the int/float distinction of the result is dropped, it is never
observed by the handler); booleans coerce; digit strings parse (other numeric
string formats accepted by Python are not modeled and count as failures,
conservatively grouped under ValueError); `None`, lists and dicts raise. -/
def pyFloat : DVal → Except PyErr DVal
  | .i v => Except.ok (.i v)
  | .b v => Except.ok (.i (if v then 1 else 0))
  | .s v =>
    match digitsVal v with
    | some n => Except.ok (.i n)
    | Option.none => Except.error PyErr.valueError
  | .null => Except.error PyErr.typeError
  | .arr _ => Except.error PyErr.typeError
  | .obj _ => Except.error PyErr.typeError

/-- Builtin `int(x)` on a stored attribute value, modeled like `pyFloat`
(the handler applies it to whole-number credit counts). -/
def pyInt : DVal → Except PyErr DVal
  | .i v => Except.ok (.i v)
  | .b v => Except.ok (.i (if v then 1 else 0))
  | .s v =>
    match digitsVal v with
    | some n => Except.ok (.i n)
    | Option.none => Except.error PyErr.valueError
  | .null => Except.error PyErr.typeError
  | .arr _ => Except.error PyErr.typeError
  | .obj _ => Except.error PyErr.typeError

/-- `profile.get(k, '')`: attribute with empty-string default. -/
def strAttr (profile : UserRec) (k : String) : DVal :=
  (lookupA k profile).getD (DVal.s "")

/-- `profile.get(k, [])`: attribute with empty-list default. -/
def listAttr (profile : UserRec) (k : String) : DVal :=
  (lookupA k profile).getD (DVal.arr [])

/-- The `profile_data` dict literal of `get_user_profile` (lines 116-140).
Only the three numeric conversions can raise; they are evaluated first here,
which preserves Python's left-to-right evaluation outcome because every other
entry is a side-effect-free `profile.get`. -/
def profile_body (profile : UserRec) (user_info : Claims) : Except PyErr DVal := do
  let gpa ← pyFloat ((lookupA "gpa" profile).getD (DVal.i 0))
  let totalCredits ← pyInt ((lookupA "totalCredits" profile).getD (DVal.i 0))
  let currentSemesterCredits ← pyInt ((lookupA "currentSemesterCredits" profile).getD (DVal.i 0))
  Except.ok (DVal.obj
    [("firstName", strAttr profile "firstName"),
     ("lastName", strAttr profile "lastName"),
     ("email", (lookupA "email" profile).getD (DVal.s (user_info.email.getD ""))),
     ("studentId", strAttr profile "studentId"),
     ("university", (lookupA "university" profile).getD DVal.null),
     ("college", strAttr profile "college"),
     ("major", strAttr profile "major"),
     ("concentration", strAttr profile "concentration"),
     ("minor", strAttr profile "minor"),
     ("academicYear", strAttr profile "academicYear"),
     ("expectedGraduation", strAttr profile "expectedGraduation"),
     ("gpa", gpa),
     ("totalCredits", totalCredits),
     ("currentSemesterCredits", currentSemesterCredits),
     ("careerGoals", listAttr profile "careerGoals"),
     ("learningStyle", strAttr profile "learningStyle"),
     ("academicInterests", listAttr profile "academicInterests"),
     ("advisorName", strAttr profile "advisorName"),
     ("advisorEmail", strAttr profile "advisorEmail"),
     ("advisorNotes", strAttr profile "advisorNotes"),
     ("completedCourses", listAttr profile "completedCourses"),
     ("currentCourses", listAttr profile "currentCourses"),
     ("plannedCourses", listAttr profile "plannedCourses")])

/-- Result of one route handler: the response or an uncaught exception, the
store after the call, and the trace of datastore calls made. -/
def HandlerOut : Type := Except PyErr Response × Store × List DbOp

/-- `get_user_profile(user_id, user_info)` (lines 101-146): one `get_item`;
404 when the record is missing, otherwise 200 with the defaulted profile
dict.  A raise from `float`/`int` escapes (only `ClientError` is caught
there, and the store client is modeled as reliable). -/
def get_user_profile (user_id : String) (user_info : Claims) (store : Store) :
    HandlerOut :=
  match lookupA user_id store with
  | Option.none =>
    (Except.ok (create_response 404 (.obj [("error", .s "Profile not found")])),
     store, [DbOp.getItem user_id])
  | some profile =>
    match profile_body profile user_info with
    | Except.ok body => (Except.ok (create_response 200 body), store, [DbOp.getItem user_id])
    | Except.error e => (Except.error e, store, [DbOp.getItem user_id])

/-- `create_user_profile(event, user_id, user_info)` (lines 148-199).
`json.loads(event.get('body', '\x7b\x7d'))` runs first; a parse failure is
caught as `JSONDecodeError` and answered with 400.  On a parsed body the
function builds `profile_data` (lines 156-183), whose `createdAt` entry
evaluates `context.aws_request_id` — but `context` is bound only as a
parameter of `lambda_handler` and has no module-level binding, so this raises
`NameError` before the existence probe at line 186 and before any datastore
call; neither `except` arm of this function catches it. -/
def create_user_profile (parse : String → Option DVal) (event : Event)
    (user_id : String) (user_info : Claims) (store : Store) : HandlerOut :=
  match parse (event.body.getD "\x7b\x7d") with
  | Option.none =>
    (Except.ok (create_response 400 (.obj [("error", .s "Invalid JSON in request body")])),
     store, [])
  | some _body => (Except.error PyErr.nameError, store, [])

/-- `update_user_profile(event, user_id, user_info)` (lines 201-249).  After
a successful body parse it probes the record with `get_item`.  When the
record is missing it delegates to `create_user_profile` with a synthesized
event (line 212) and forwards any non-201 response; when the record exists it
proceeds to line 218/219, which evaluates the unbound name `context` and so
raises `NameError` before `update_item`. -/
def update_user_profile (parse : String → Option DVal) (event : Event)
    (user_id : String) (user_info : Claims) (store : Store) : HandlerOut :=
  match parse (event.body.getD "\x7b\x7d") with
  | Option.none =>
    (Except.ok (create_response 400 (.obj [("error", .s "Invalid JSON in request body")])),
     store, [])
  | some _body =>
    match lookupA user_id store with
    | Option.none =>
      match create_user_profile parse
          { httpMethod := Option.none, path := Option.none, headers := Option.none,
            body := some (json_dumps (.obj [("email", .s (user_info.email.getD ""))])) }
          user_id user_info store with
      | (Except.ok resp, s1, ops1) =>
        if resp.statusCode ≠ 201 then (Except.ok resp, s1, DbOp.getItem user_id :: ops1)
        else (Except.error PyErr.nameError, s1, DbOp.getItem user_id :: ops1)
      | (Except.error e, s1, ops1) => (Except.error e, s1, DbOp.getItem user_id :: ops1)
    | some _ => (Except.error PyErr.nameError, store, [DbOp.getItem user_id])

/-- The route dispatch of `lambda_handler` (lines 37-44): substring route
matching on the request path, in source order. -/
def route_result (parse : String → Option DVal) (event : Event)
    (user_id : String) (user_info : Claims) (store : Store) : HandlerOut :=
  if event.httpMethod = some "GET" && strContains (event.path.getD "") "/api/users/me" then
    get_user_profile user_id user_info store
  else if event.httpMethod = some "PUT" && strContains (event.path.getD "") "/api/users/me" then
    update_user_profile parse event user_id user_info store
  else if event.httpMethod = some "POST" && strContains (event.path.getD "") "/api/users/profile" then
    create_user_profile parse event user_id user_info store
  else
    (Except.ok (create_response 404 (.obj [("error", .s "Endpoint not found")])), store, [])

/-- Does the request match one of the three routes?  Mirrors the conditions
of `route_result`; `sub in path` is substring containment. -/
def routeMatch (event : Event) : Bool :=
  (event.httpMethod = some "GET" && strContains (event.path.getD "") "/api/users/me") ||
  (event.httpMethod = some "PUT" && strContains (event.path.getD "") "/api/users/me") ||
  (event.httpMethod = some "POST" && strContains (event.path.getD "") "/api/users/profile")

/-- `lambda_handler(event, context)` (lines 19-48): authenticate, route, and
catch every exception as a 500.  Returns the response, the store after the
request, and the datastore call trace. -/
def lambda_handler (verify : String → Option Claims) (parse : String → Option DVal)
    (event : Event) (store : Store) : Response × Store × List DbOp :=
  match extract_user_from_token verify event with
  | Option.none => (create_response 401 (.obj [("error", .s "Unauthorized")]), store, [])
  | some user_info =>
    match route_result parse event user_info.sub user_info store with
    | (Except.ok resp, s, ops) => (resp, s, ops)
    | (Except.error _, s, ops) =>
      (create_response 500 (.obj [("error", .s "Internal server error")]), s, ops)

theorem get_user_profile_ok_shape (user_id : String) (user_info : Claims) (store : Store)
    (resp : Response) (s : Store) (ops : List DbOp)
    (h : get_user_profile user_id user_info store = (Except.ok resp, s, ops)) :
    ∃ sc b, resp = create_response sc b := by
  unfold get_user_profile at h
  split at h
  · exact ⟨404, _, (Except.ok.inj (congrArg Prod.fst h)).symm⟩
  · split at h
    · rename_i body hb
      exact ⟨200, body, (Except.ok.inj (congrArg Prod.fst h)).symm⟩
    · exact Except.noConfusion (congrArg Prod.fst h)

theorem create_user_profile_ok_shape (parse : String → Option DVal) (event : Event)
    (user_id : String) (user_info : Claims) (store : Store)
    (resp : Response) (s : Store) (ops : List DbOp)
    (h : create_user_profile parse event user_id user_info store = (Except.ok resp, s, ops)) :
    ∃ sc b, resp = create_response sc b := by
  unfold create_user_profile at h
  split at h
  · exact ⟨400, _, (Except.ok.inj (congrArg Prod.fst h)).symm⟩
  · exact Except.noConfusion (congrArg Prod.fst h)

theorem update_user_profile_ok_shape (parse : String → Option DVal) (event : Event)
    (user_id : String) (user_info : Claims) (store : Store)
    (resp : Response) (s : Store) (ops : List DbOp)
    (h : update_user_profile parse event user_id user_info store = (Except.ok resp, s, ops)) :
    ∃ sc b, resp = create_response sc b := by
  unfold update_user_profile at h
  split at h
  · exact ⟨400, _, (Except.ok.inj (congrArg Prod.fst h)).symm⟩
  · split at h
    · split at h
      · split at h
        · rename_i heq hne
          obtain ⟨sc, bb, hshape⟩ :=
            create_user_profile_ok_shape parse _ user_id user_info store _ _ _ heq
          exact ⟨sc, bb, (Except.ok.inj (congrArg Prod.fst h)).symm.trans hshape⟩
        · exact Except.noConfusion (congrArg Prod.fst h)
      · exact Except.noConfusion (congrArg Prod.fst h)
    · exact Except.noConfusion (congrArg Prod.fst h)

theorem route_result_ok_shape (parse : String → Option DVal) (event : Event)
    (user_id : String) (user_info : Claims) (store : Store)
    (resp : Response) (s : Store) (ops : List DbOp)
    (h : route_result parse event user_id user_info store = (Except.ok resp, s, ops)) :
    ∃ sc b, resp = create_response sc b := by
  unfold route_result at h
  split at h
  · exact get_user_profile_ok_shape user_id user_info store resp s ops h
  · split at h
    · exact update_user_profile_ok_shape parse event user_id user_info store resp s ops h
    · split at h
      · exact create_user_profile_ok_shape parse event user_id user_info store resp s ops h
      · exact ⟨404, _, (Except.ok.inj (congrArg Prod.fst h)).symm⟩

theorem route_result_no_match (parse : String → Option DVal) (event : Event)
    (user_id : String) (user_info : Claims) (store : Store)
    (h : routeMatch event = false) :
    route_result parse event user_id user_info store =
      (Except.ok (create_response 404 (DVal.obj [("error", DVal.s "Endpoint not found")])),
       store, []) := by
  unfold routeMatch at h
  have h1 := (Bool.or_eq_false_iff.mp (Bool.or_eq_false_iff.mp h).1).1
  have h2 := (Bool.or_eq_false_iff.mp (Bool.or_eq_false_iff.mp h).1).2
  have h3 := (Bool.or_eq_false_iff.mp h).2
  unfold route_result
  rw [if_neg (by simp [h1]), if_neg (by simp [h2]), if_neg (by simp [h3])]

/-- C4: a request whose Authorization header (under either key) is absent,
does not start with `"Bearer "`, or whose bearer token fails verification, is
answered 401 `\x7b"error": "Unauthorized"\x7d` with no datastore read or
write (the store is unchanged and the call trace is empty). -/
theorem lambda_handler_unauthorized (verify : String → Option Claims)
    (parse : String → Option DVal) (event : Event) (store : Store)
    (h : get_auth_header (event.headers.getD []) = Option.none
       ∨ (∃ a, get_auth_header (event.headers.getD []) = some a ∧
            strStartsWith a "Bearer " = false)
       ∨ (∃ a, get_auth_header (event.headers.getD []) = some a ∧
            strStartsWith a "Bearer " = true ∧ verify (tokenOf a) = Option.none)) :
    lambda_handler verify parse event store =
      (create_response 401 (DVal.obj [("error", DVal.s "Unauthorized")]), store, []) := by
  have hex : extract_user_from_token verify event = Option.none := by
    unfold extract_user_from_token
    rcases h with h0 | ⟨a, ha, hb⟩ | ⟨a, ha, hb, hv⟩
    · rw [h0]
    · rw [ha]
      simp [hb]
    · rw [ha]
      have hne : ¬(a = "") := by
        intro h0
        subst h0
        exact absurd hb (by decide)
      simp [hb, hne, hv]
  unfold lambda_handler
  rw [hex]

/-- Witness for `lambda_handler_unauthorized`: a request whose Authorization
header does not carry a Bearer token is rejected without touching the
store. -/
theorem lambda_handler_unauthorized_witness :
    lambda_handler (fun _ => Option.none) (fun _ => Option.none)
      { httpMethod := some "GET", path := some "/api/users/me",
        headers := some [("Authorization", "Basic abc")], body := Option.none }
      [("u1", [("userId", DVal.s "u1")])] =
      (create_response 401 (DVal.obj [("error", DVal.s "Unauthorized")]),
       [("u1", [("userId", DVal.s "u1")])], []) :=
  lambda_handler_unauthorized _ _ _ _
    (Or.inr (Or.inl ⟨"Basic abc", rfl, by decide⟩))

/-- C5: `lambda_handler` is total over request events: it always returns a
response built by `create_response` (an integer status code together with the
`json.dumps` serialization of a body dict); an authenticated request matching
none of the three routes is answered 404 `\x7b"error": "Endpoint not
found"\x7d` with no datastore access; and an uncaught exception inside the
dispatched route handler is mapped to 500 `\x7b"error": "Internal server
error"\x7d`. -/
theorem lambda_handler_total (verify : String → Option Claims)
    (parse : String → Option DVal) (event : Event) (store : Store) :
    (∃ sc b, (lambda_handler verify parse event store).1 = create_response sc b) ∧
    (∀ info, extract_user_from_token verify event = some info →
       routeMatch event = false →
       lambda_handler verify parse event store =
         (create_response 404 (DVal.obj [("error", DVal.s "Endpoint not found")]),
          store, [])) ∧
    (∀ info e s ops, extract_user_from_token verify event = some info →
       route_result parse event info.sub info store = (Except.error e, s, ops) →
       lambda_handler verify parse event store =
         (create_response 500 (DVal.obj [("error", DVal.s "Internal server error")]),
          s, ops)) := by
  refine ⟨?_, ?_, ?_⟩
  · unfold lambda_handler
    cases hex : extract_user_from_token verify event with
    | none => exact ⟨401, DVal.obj [("error", DVal.s "Unauthorized")], rfl⟩
    | some info =>
      rcases hr : route_result parse event info.sub info store with ⟨r, s, ops⟩
      cases r with
      | ok resp =>
        obtain ⟨sc, b, hshape⟩ :=
          route_result_ok_shape parse event info.sub info store resp s ops hr
        exact ⟨sc, b, by simp only [hr]; exact hshape⟩
      | error e =>
        exact ⟨500, DVal.obj [("error", DVal.s "Internal server error")],
          by simp only [hr]⟩
  · intro info hex hnr
    unfold lambda_handler
    simp only [hex, route_result_no_match parse event info.sub info store hnr]
  · intro info e s ops hex hr
    unfold lambda_handler
    simp only [hex, hr]

/-- Witness for `lambda_handler_total`: an authenticated GET outside the three
routes gets a 404, and an authenticated POST to `/api/users/profile` (whose
handler raises on the unbound name `context`) gets a 500. -/
theorem lambda_handler_total_witness :
    lambda_handler (fun _ => some ⟨"u1", Option.none, Option.none, Option.none⟩)
      (fun _ => some DVal.null)
      { httpMethod := some "GET", path := some "/health",
        headers := some [("Authorization", "Bearer t")], body := Option.none } [] =
      (create_response 404 (DVal.obj [("error", DVal.s "Endpoint not found")]), [], []) ∧
    lambda_handler (fun _ => some ⟨"u1", Option.none, Option.none, Option.none⟩)
      (fun _ => some DVal.null)
      { httpMethod := some "POST", path := some "/api/users/profile",
        headers := some [("Authorization", "Bearer t")], body := Option.none } [] =
      (create_response 500 (DVal.obj [("error", DVal.s "Internal server error")]), [], []) :=
  ⟨(lambda_handler_total _ _ _ _).2.1 ⟨"u1", Option.none, Option.none, Option.none⟩ rfl rfl,
   (lambda_handler_total _ _ _ _).2.2 ⟨"u1", Option.none, Option.none, Option.none⟩
     PyErr.nameError [] [] rfl rfl⟩

/-- C8 counterexample: for a stored record that lacks the `university`
attribute, GET `/api/users/me` returns 200 with `university` set to `null`
(Python `None`, from the defaultless `profile.get('university')`), which is
neither the empty string, nor 0, nor the empty list, nor the token email
fallback; every other missing attribute does get one of those defaults. -/
theorem get_profile_university_default_is_null :
    (get_user_profile "u1" ⟨"u1", Option.none, Option.none, Option.none⟩
        [("u1", [("userId", DVal.s "u1")])]).1 =
      Except.ok (create_response 200 (DVal.obj
        [("firstName", DVal.s ""), ("lastName", DVal.s ""), ("email", DVal.s ""),
         ("studentId", DVal.s ""), ("university", DVal.null), ("college", DVal.s ""),
         ("major", DVal.s ""), ("concentration", DVal.s ""), ("minor", DVal.s ""),
         ("academicYear", DVal.s ""), ("expectedGraduation", DVal.s ""),
         ("gpa", DVal.i 0), ("totalCredits", DVal.i 0),
         ("currentSemesterCredits", DVal.i 0), ("careerGoals", DVal.arr []),
         ("learningStyle", DVal.s ""), ("academicInterests", DVal.arr []),
         ("advisorName", DVal.s ""), ("advisorEmail", DVal.s ""),
         ("advisorNotes", DVal.s ""), ("completedCourses", DVal.arr []),
         ("currentCourses", DVal.arr []), ("plannedCourses", DVal.arr [])])) ∧
    DVal.null ≠ DVal.s "" ∧ DVal.null ≠ DVal.i 0 ∧ DVal.null ≠ DVal.arr [] :=
  ⟨rfl, fun h => DVal.noConfusion h, fun h => DVal.noConfusion h,
   fun h => DVal.noConfusion h⟩

/-- C8 (amended): for GET `/api/users/me`, a missing record yields 404
`\x7b"error": "Profile not found"\x7d`; an existing record (whose numeric
attributes, when present, are numbers) yields 200 with all 23 profile fields,
each missing attribute replaced by its default — the empty string, 0 or the
empty list, except `university`, whose default is `null`, and `email`, which
falls back to the token's email claim.  Exactly one `get_item` is issued and
the store is unchanged. -/
theorem get_user_profile_spec (user_id : String) (user_info : Claims) (store : Store) :
    (lookupA user_id store = Option.none →
      get_user_profile user_id user_info store =
        (Except.ok (create_response 404 (DVal.obj [("error", DVal.s "Profile not found")])),
         store, [DbOp.getItem user_id])) ∧
    (∀ profile g t c, lookupA user_id store = some profile →
      pyFloat ((lookupA "gpa" profile).getD (DVal.i 0)) = Except.ok g →
      pyInt ((lookupA "totalCredits" profile).getD (DVal.i 0)) = Except.ok t →
      pyInt ((lookupA "currentSemesterCredits" profile).getD (DVal.i 0)) = Except.ok c →
      get_user_profile user_id user_info store =
        (Except.ok (create_response 200 (DVal.obj
          [("firstName", strAttr profile "firstName"),
           ("lastName", strAttr profile "lastName"),
           ("email", (lookupA "email" profile).getD (DVal.s (user_info.email.getD ""))),
           ("studentId", strAttr profile "studentId"),
           ("university", (lookupA "university" profile).getD DVal.null),
           ("college", strAttr profile "college"),
           ("major", strAttr profile "major"),
           ("concentration", strAttr profile "concentration"),
           ("minor", strAttr profile "minor"),
           ("academicYear", strAttr profile "academicYear"),
           ("expectedGraduation", strAttr profile "expectedGraduation"),
           ("gpa", g), ("totalCredits", t), ("currentSemesterCredits", c),
           ("careerGoals", listAttr profile "careerGoals"),
           ("learningStyle", strAttr profile "learningStyle"),
           ("academicInterests", listAttr profile "academicInterests"),
           ("advisorName", strAttr profile "advisorName"),
           ("advisorEmail", strAttr profile "advisorEmail"),
           ("advisorNotes", strAttr profile "advisorNotes"),
           ("completedCourses", listAttr profile "completedCourses"),
           ("currentCourses", listAttr profile "currentCourses"),
           ("plannedCourses", listAttr profile "plannedCourses")])),
         store, [DbOp.getItem user_id])) := by
  constructor
  · intro h
    unfold get_user_profile
    simp only [h]
  · intro profile g t c hl h1 h2 h3
    unfold get_user_profile profile_body
    simp only [hl, h1, h2, h3]
    rfl

/-- Witness for `get_user_profile_spec`: both clauses at concrete stores —
an empty store gives 404, and a record holding only `gpa = 3` gives 200 with
every default filled in and the token email used. -/
theorem get_user_profile_spec_witness :
    get_user_profile "u9" ⟨"u9", some "s@x.io", Option.none, Option.none⟩ [] =
      (Except.ok (create_response 404 (DVal.obj [("error", DVal.s "Profile not found")])),
       [], [DbOp.getItem "u9"]) ∧
    get_user_profile "u2" ⟨"u2", some "a@b.io", Option.none, Option.none⟩
        [("u2", [("gpa", DVal.i 3)])] =
      (Except.ok (create_response 200 (DVal.obj
        [("firstName", DVal.s ""), ("lastName", DVal.s ""), ("email", DVal.s "a@b.io"),
         ("studentId", DVal.s ""), ("university", DVal.null), ("college", DVal.s ""),
         ("major", DVal.s ""), ("concentration", DVal.s ""), ("minor", DVal.s ""),
         ("academicYear", DVal.s ""), ("expectedGraduation", DVal.s ""),
         ("gpa", DVal.i 3), ("totalCredits", DVal.i 0),
         ("currentSemesterCredits", DVal.i 0), ("careerGoals", DVal.arr []),
         ("learningStyle", DVal.s ""), ("academicInterests", DVal.arr []),
         ("advisorName", DVal.s ""), ("advisorEmail", DVal.s ""),
         ("advisorNotes", DVal.s ""), ("completedCourses", DVal.arr []),
         ("currentCourses", DVal.arr []), ("plannedCourses", DVal.arr [])])),
       [("u2", [("gpa", DVal.i 3)])], [DbOp.getItem "u2"]) :=
  ⟨(get_user_profile_spec "u9" ⟨"u9", some "s@x.io", Option.none, Option.none⟩ []).1 rfl,
   (get_user_profile_spec "u2" ⟨"u2", some "a@b.io", Option.none, Option.none⟩
       [("u2", [("gpa", DVal.i 3)])]).2
     [("gpa", DVal.i 3)] (DVal.i 3) (DVal.i 0) (DVal.i 0) rfl rfl rfl rfl⟩

/-- C9: POST `/api/users/profile` never overwrites an existing profile: when
a record with the caller's userId is already stored, `create_user_profile`
issues no `put_item` (indeed no datastore call at all — on a parsed body it
raises `NameError` at line 181, on the unbound `context`, before the
existence probe) and leaves the store unchanged. -/
theorem create_user_profile_no_overwrite (parse : String → Option DVal)
    (event : Event) (user_id : String) (user_info : Claims) (store : Store)
    (h : ∃ profile, lookupA user_id store = some profile) :
    (create_user_profile parse event user_id user_info store).2.1 = store ∧
    ∀ k, DbOp.putItem k ∉ (create_user_profile parse event user_id user_info store).2.2 := by
  unfold create_user_profile
  cases parse (event.body.getD "\x7b\x7d") <;> simp

/-- Witness for `create_user_profile_no_overwrite`: a POST for an already
stored user leaves the store unchanged and issues no put. -/
theorem create_user_profile_no_overwrite_witness :
    (create_user_profile (fun _ => some DVal.null)
        { httpMethod := some "POST", path := some "/api/users/profile",
          headers := Option.none, body := some "\x7b\x7d" }
        "u1" ⟨"u1", Option.none, Option.none, Option.none⟩
        [("u1", [("userId", DVal.s "u1")])]).2.1 =
      [("u1", [("userId", DVal.s "u1")])] ∧
    ∀ k, DbOp.putItem k ∉
      (create_user_profile (fun _ => some DVal.null)
        { httpMethod := some "POST", path := some "/api/users/profile",
          headers := Option.none, body := some "\x7b\x7d" }
        "u1" ⟨"u1", Option.none, Option.none, Option.none⟩
        [("u1", [("userId", DVal.s "u1")])]).2.2 :=
  create_user_profile_no_overwrite _ _ _ _ _ ⟨[("userId", DVal.s "u1")], rfl⟩

/-! ## Requirement-pattern detector
    from `RequirementPatternDetector` (src/Scrapers/degreerequirements_scraper.py
    lines 56-165).

    Each of the concrete regular expressions of the detector is hand-compiled
    to an executable matcher over the lowered character list.  `re.search`
    semantics are embedded by trying every start position left to right
    (`searchM`).  Greedy `\s+`, `\d+` and `[A-Z]\x7b2,4\x7d` runs are taken by
    maximal munch, which is exact for these patterns because each run is
    followed by a disjoint character class; the alternations backtrack
    explicitly in source order.  `\s`, `\d`, `[A-Z]` and `str.lower` are
    modeled over their ASCII ranges (the catalog text the detector receives is
    ASCII prose). -/

/-- Python `\s` (ASCII range). -/
def isWs (c : Char) : Bool :=
  c = ' ' || c = '\t' || c = '\n' || c = '\r' || c = '\x0b' || c = '\x0c'

/-- Python `\d` (ASCII range). -/
def isDig (c : Char) : Bool := '0' ≤ c && c ≤ '9'

/-- `[A-Z]`. -/
def isUpperA (c : Char) : Bool := 'A' ≤ c && c ≤ 'Z'

/-- `text.lower()` (ASCII range). -/
def pyLower (text : String) : List Char := text.data.map Char.toLower

/-- Consume the literal `l`. -/
def lit : List Char → List Char → Option (List Char)
  | [], cs => some cs
  | _ :: _, [] => Option.none
  | p :: ps, c :: cs => if c = p then lit ps cs else Option.none

/-- `\s+`: one or more whitespace, maximal munch. -/
def ws1 : List Char → Option (List Char)
  | [] => Option.none
  | c :: cs => if isWs c then some (cs.dropWhile isWs) else Option.none

/-- `\s*`: zero or more whitespace, maximal munch. -/
def ws0 (cs : List Char) : List Char := cs.dropWhile isWs

/-- `(\d+)`: a maximal digit run with its `int()` value. -/
def digits1 (cs : List Char) : Option (Nat × List Char) :=
  let ds := cs.takeWhile isDig
  if ds.isEmpty then Option.none
  else some (ds.foldl (fun a c => 10 * a + (c.toNat - 48)) 0, cs.dropWhile isDig)

/-- Try every start position left to right, as `re.search` does (the final
position is the empty suffix). -/
def searchM {α : Type} (m : List Char → Option α) : List Char → Option α
  | [] => m []
  | c :: cs => (m (c :: cs)).orElse (fun _ => searchM m cs)

/-- `(?:from|of)` at pattern end. -/
def tailFromOf (cs : List Char) : Option (List Char) :=
  (lit "from".toList cs).orElse (fun _ => lit "of".toList cs)

/-- `choose\s+(\d+)\s+(?:from|of)` at one position. -/
def mChoose (cs : List Char) : Option (Option Nat) := do
  let cs ← lit "choose".toList cs
  let cs ← ws1 cs
  let (n, cs) ← digits1 cs
  let cs ← ws1 cs
  let _ ← tailFromOf cs
  some (some n)

/-- `select\s+(\d+)\s+(?:from|of)`. -/
def mSelect (cs : List Char) : Option (Option Nat) := do
  let cs ← lit "select".toList cs
  let cs ← ws1 cs
  let (n, cs) ← digits1 cs
  let cs ← ws1 cs
  let _ ← tailFromOf cs
  some (some n)

/-- `take\s+(\d+)\s+(?:from|of)`. -/
def mTake (cs : List Char) : Option (Option Nat) := do
  let cs ← lit "take".toList cs
  let cs ← ws1 cs
  let (n, cs) ← digits1 cs
  let cs ← ws1 cs
  let _ ← tailFromOf cs
  some (some n)

/-- `(\d+)\s+(?:course|courses)\s+from`: the alternation tries `course`
first and backtracks to `courses` when the tail fails, as re does. -/
def mCoursesFrom (cs : List Char) : Option (Option Nat) := do
  let (n, cs) ← digits1 cs
  let cs ← ws1 cs
  let _ ← (do
      let cs1 ← lit "course".toList cs
      let cs1 ← ws1 cs1
      lit "from".toList cs1).orElse (fun _ => do
      let cs2 ← lit "courses".toList cs
      let cs2 ← ws1 cs2
      lit "from".toList cs2)
  some (some n)

/-- `(\d+)\s+of\s+the\s+following`. -/
def mNOfFollowing (cs : List Char) : Option (Option Nat) := do
  let (n, cs) ← digits1 cs
  let cs ← ws1 cs
  let cs ← lit "of".toList cs
  let cs ← ws1 cs
  let cs ← lit "the".toList cs
  let cs ← ws1 cs
  let _ ← lit "following".toList cs
  some (some n)

/-- `one\s+of\s+the\s+following`: no capture group, so `match.group(1)`
raises IndexError and the caller falls back to count 1. -/
def mOneOfFollowing (cs : List Char) : Option (Option Nat) := do
  let cs ← lit "one".toList cs
  let cs ← ws1 cs
  let cs ← lit "of".toList cs
  let cs ← ws1 cs
  let cs ← lit "the".toList cs
  let cs ← ws1 cs
  let _ ← lit "following".toList cs
  some Option.none

/-- `any\s+(\d+)\s+(?:course|courses)`: `course` is a prefix of `courses`
and the alternation ends the pattern, so the first branch suffices whenever
the second would match. -/
def mAnyNCourses (cs : List Char) : Option (Option Nat) := do
  let cs ← lit "any".toList cs
  let cs ← ws1 cs
  let (n, cs) ← digits1 cs
  let cs ← ws1 cs
  let _ ← (lit "course".toList cs).orElse (fun _ => lit "courses".toList cs)
  some (some n)

/-- `self.choice_patterns` (lines 61-69), each with its compiled matcher. -/
def choice_patterns : List (String × (List Char → Option (Option Nat))) :=
  [("choose\\s+(\\d+)\\s+(?:from|of)", mChoose),
   ("select\\s+(\\d+)\\s+(?:from|of)", mSelect),
   ("take\\s+(\\d+)\\s+(?:from|of)", mTake),
   ("(\\d+)\\s+(?:course|courses)\\s+from", mCoursesFrom),
   ("(\\d+)\\s+of\\s+the\\s+following", mNOfFollowing),
   ("one\\s+of\\s+the\\s+following", mOneOfFollowing),
   ("any\\s+(\\d+)\\s+(?:course|courses)", mAnyNCourses)]

/-- The `for pattern in self.choice_patterns` loop head (lines 107-109):
first pattern whose `re.search` finds a match, with that match's capture. -/
def firstChoice (tl : List Char) :
    List (String × (List Char → Option (Option Nat))) → Option (String × Option Nat)
  | [] => Option.none
  | (pat, m) :: rest =>
    match searchM m tl with
    | some cap => some (pat, cap)
    | Option.none => firstChoice tl rest

/-- `(?:or|OR)` (the input is lowered first, so the `OR` branch can never
fire, but it is kept). -/
def mOrPat (cs : List Char) : Option (List Char) :=
  (lit "or".toList cs).orElse (fun _ => lit "OR".toList cs)

/-- `either.*?or`: `.` does not match a newline, so after `either` the
literal `or` must occur before the next newline. -/
def mEitherOr (cs : List Char) : Option (List Char) := do
  let cs ← lit "either".toList cs
  if listContains "or".toList (cs.takeWhile (· ≠ '\n')) then some cs else Option.none

/-- `alternative(?:ly)?`: the trailing optional group cannot fail. -/
def mAlternativeWord (cs : List Char) : Option (List Char) :=
  lit "alternative".toList cs

/-- `in\s+lieu\s+of`. -/
def mInLieu (cs : List Char) : Option (List Char) := do
  let cs ← lit "in".toList cs
  let cs ← ws1 cs
  let cs ← lit "lieu".toList cs
  let cs ← ws1 cs
  lit "of".toList cs

/-- `instead\s+of`. -/
def mInstead (cs : List Char) : Option (List Char) := do
  let cs ← lit "instead".toList cs
  let cs ← ws1 cs
  lit "of".toList cs

/-- `any(re.search(p, text_lower) for p in self.alternative_patterns)`
(line 123) over the patterns of lines 71-77. -/
def anyAlternative (tl : List Char) : Bool :=
  (searchM mOrPat tl).isSome || (searchM mEitherOr tl).isSome ||
  (searchM mAlternativeWord tl).isSome || (searchM mInLieu tl).isSome ||
  (searchM mInstead tl).isSome

/-- `must\s+be\s+taken\s+in\s+order`. -/
def mTakenInOrder (cs : List Char) : Option (List Char) := do
  let cs ← lit "must".toList cs
  let cs ← ws1 cs
  let cs ← lit "be".toList cs
  let cs ← ws1 cs
  let cs ← lit "taken".toList cs
  let cs ← ws1 cs
  let cs ← lit "in".toList cs
  let cs ← ws1 cs
  lit "order".toList cs

/-- `prerequisite\s+chain`. -/
def mChain (cs : List Char) : Option (List Char) := do
  let cs ← lit "prerequisite".toList cs
  let cs ← ws1 cs
  lit "chain".toList cs

/-- `(?:I,\s*II,\s*III|1,\s*2,\s*3)` (the Roman branch cannot fire on
lowered text, but it is kept). -/
def mSeries123 (cs : List Char) : Option (List Char) :=
  (do
    let cs ← lit "I,".toList cs
    let cs := ws0 cs
    let cs ← lit "II,".toList cs
    let cs := ws0 cs
    lit "III".toList cs).orElse (fun _ => do
    let cs ← lit "1,".toList cs
    let cs := ws0 cs
    let cs ← lit "2,".toList cs
    let cs := ws0 cs
    lit "3".toList cs)

/-- `any(re.search(p, text_lower) for p in self.sequence_patterns)`
(line 131) over the patterns of lines 79-85. -/
def anySequence (tl : List Char) : Bool :=
  (searchM (lit "sequence".toList) tl).isSome ||
  (searchM (lit "series".toList) tl).isSome ||
  (searchM mTakenInOrder tl).isSome ||
  (searchM mChain tl).isSome ||
  (searchM mSeries123 tl).isSome

/-- `(?:upper|lower)\s+division`. -/
def mUppLowDivision (cs : List Char) : Option (List Char) := do
  let cs ← (lit "upper".toList cs).orElse (fun _ => lit "lower".toList cs)
  let cs ← ws1 cs
  lit "division".toList cs

/-- Exactly three digit characters (`\d\x7b3\x7d`). -/
def exact3Digits : List Char → Option (List Char)
  | a :: b :: c :: rest =>
    if isDig a && isDig b && isDig c then some rest else Option.none
  | _ => Option.none

/-- `(\d\x7b3\x7d)\s*level\s+(?:or\s+above|and\s+above|\+)` (the capture is
never read by the detector). -/
def mLevelAbove (cs : List Char) : Option (List Char) := do
  let cs ← exact3Digits cs
  let cs := ws0 cs
  let cs ← lit "level".toList cs
  let cs ← ws1 cs
  (do
    let cs1 ← lit "or".toList cs
    let cs1 ← ws1 cs1
    lit "above".toList cs1).orElse (fun _ =>
    (do
      let cs2 ← lit "and".toList cs
      let cs2 ← ws1 cs2
      lit "above".toList cs2).orElse (fun _ => lit "+".toList cs))

/-- `any\s+([A-Z]\x7b2,4\x7d)\s+course`: the greedy bounded run is followed
by `\s+`, a disjoint class, so a match forces the whole uppercase run to be
consumed — it succeeds exactly when that run has length 2 to 4 (never on
lowered text, but kept). -/
def mAnyDeptCourse (cs : List Char) : Option (List Char) := do
  let cs ← lit "any".toList cs
  let cs ← ws1 cs
  let run := cs.takeWhile isUpperA
  if 2 ≤ run.length ∧ run.length ≤ 4 then do
    let cs ← ws1 (cs.dropWhile isUpperA)
    lit "course".toList cs
  else Option.none

/-- `approved\s+(?:course|elective)`. -/
def mApproved (cs : List Char) : Option (List Char) := do
  let cs ← lit "approved".toList cs
  let cs ← ws1 cs
  (lit "course".toList cs).orElse (fun _ => lit "elective".toList cs)

/-- `self.category_patterns` (lines 87-93), each with its compiled matcher
(`elective(?:s)?` matches iff the literal `elective` occurs). -/
def category_patterns : List (String × (List Char → Option (List Char))) :=
  [("(?:upper|lower)\\s+division", mUppLowDivision),
   ("(\\d\x7b3\x7d)\\s*level\\s+(?:or\\s+above|and\\s+above|\\+)", mLevelAbove),
   ("any\\s+([A-Z]\x7b2,4\x7d)\\s+course", mAnyDeptCourse),
   ("elective(?:s)?", lit "elective".toList),
   ("approved\\s+(?:course|elective)", mApproved)]

/-- The `for pattern in self.category_patterns` loop head (lines 139-140):
source string of the first matching pattern. -/
def firstCategory (tl : List Char) :
    List (String × (List Char → Option (List Char))) → Option String
  | [] => Option.none
  | (pat, m) :: rest =>
    if (searchM m tl).isSome then some pat else firstCategory tl rest

/-- `(\d+)\s+units?\s+(?:from|of|in)`: the optional `s` is tried consumed
first and the matcher backtracks to the bare `unit` when the tail fails. -/
def mUnitsFromOfIn (cs : List Char) : Option Nat := do
  let (n, cs) ← digits1 cs
  let cs ← ws1 cs
  let cs ← lit "unit".toList cs
  let tail := fun (cs2 : List Char) => do
    let cs2 ← ws1 cs2
    (lit "from".toList cs2).orElse (fun _ =>
      (lit "of".toList cs2).orElse (fun _ => lit "in".toList cs2))
  let k :=
    match lit "s".toList cs with
    | some cs2 => (tail cs2).orElse (fun _ => tail cs)
    | Option.none => tail cs
  let _ ← k
  some n

/-- `minimum\s+of\s+(\d+)\s+units?`: the trailing `s?` cannot fail. -/
def mMinimumUnits (cs : List Char) : Option Nat := do
  let cs ← lit "minimum".toList cs
  let cs ← ws1 cs
  let cs ← lit "of".toList cs
  let cs ← ws1 cs
  let (n, cs) ← digits1 cs
  let cs ← ws1 cs
  let _ ← lit "unit".toList cs
  some n

/-- `at\s+least\s+(\d+)\s+units?`. -/
def mAtLeastUnits (cs : List Char) : Option Nat := do
  let cs ← lit "at".toList cs
  let cs ← ws1 cs
  let cs ← lit "least".toList cs
  let cs ← ws1 cs
  let (n, cs) ← digits1 cs
  let cs ← ws1 cs
  let _ ← lit "unit".toList cs
  some n

/-- The character class `[-‚Äì]` of line 99: a hyphen together with the
three characters of a mis-decoded en dash (the file stores the UTF-8 bytes
of `–` re-decoded, yielding U+201A, U+00C4, U+00EC). -/
def dashClass (c : Char) : Bool :=
  c = '-' || c = '‚' || c = 'Ä' || c = 'ì'

/-- `(\d+)[-‚Äì](\d+)\s+units?`: the first capture is the reported count. -/
def mRangeUnits (cs : List Char) : Option Nat := do
  let (n, cs) ← digits1 cs
  let cs ← (match cs with
    | c :: rest => if dashClass c then some rest else Option.none
    | [] => Option.none)
  let (_, cs) ← digits1 cs
  let cs ← ws1 cs
  let _ ← lit "unit".toList cs
  some n

/-- `self.units_patterns` (lines 95-100), each with its compiled matcher. -/
def units_patterns : List (String × (List Char → Option Nat)) :=
  [("(\\d+)\\s+units?\\s+(?:from|of|in)", mUnitsFromOfIn),
   ("minimum\\s+of\\s+(\\d+)\\s+units?", mMinimumUnits),
   ("at\\s+least\\s+(\\d+)\\s+units?", mAtLeastUnits),
   ("(\\d+)[-‚Äì](\\d+)\\s+units?", mRangeUnits)]

/-- The `for pattern in self.units_patterns` loop (lines 148-159): first
matching pattern's first captured integer.  The `int(match.group(1))`
conversion can never raise here, because every units pattern captures a
digit run as group 1, so the `except ... pass` arm is dead. -/
def firstUnits (tl : List Char) :
    List (String × (List Char → Option Nat)) → Option Nat
  | [] => Option.none
  | (_, m) :: rest =>
    match searchM m tl with
    | some n => some n
    | Option.none => firstUnits tl rest

/-- Values of the classification dict. -/
inductive RVal where
  | s (v : String)
  | n (v : Nat)
  | b (v : Bool)
deriving DecidableEq, Repr

/-- `detect_requirement_type(self, text)` (lines 102-165). -/
def detect_requirement_type (text : String) : List (String × RVal) :=
  let text_lower := pyLower text
  match firstChoice text_lower choice_patterns with
  | some (pattern, cap) =>
    -- count = int(match.group(1)) if it is a digit string, else 1
    -- (IndexError from the groupless pattern also falls back to 1)
    let count := cap.getD 1
    [("type", RVal.s (if count > 1 then "choose_exact" else "choose_minimum")),
     ("courses_required", RVal.n count),
     ("selection_count", RVal.n count),
     ("detected_pattern", RVal.s pattern)]
  | Option.none =>
    if anyAlternative text_lower then
      [("type", RVal.s "alternative"), ("courses_required", RVal.n 1),
       ("detected_pattern", RVal.s "alternative")]
    else if anySequence text_lower then
      [("type", RVal.s "sequence"), ("prerequisite_chain", RVal.b true),
       ("detected_pattern", RVal.s "sequence")]
    else
      match firstCategory text_lower category_patterns with
      | some pattern =>
        [("type", RVal.s "category_based"), ("category_restriction", RVal.s pattern),
         ("detected_pattern", RVal.s "category")]
      | Option.none =>
        match firstUnits text_lower units_patterns with
        | some units =>
          [("type", RVal.s "choose_units"), ("units_required", RVal.n units),
           ("detected_pattern", RVal.s "units")]
        | Option.none =>
          [("type", RVal.s "required_all"), ("detected_pattern", RVal.s "default")]

/-- Does the lowered text match any pattern of any of the five groups? -/
def matchesAnyPattern (tl : List Char) : Bool :=
  (firstChoice tl choice_patterns).isSome || anyAlternative tl || anySequence tl ||
  (firstCategory tl category_patterns).isSome || (firstUnits tl units_patterns).isSome

theorem optNoneOfIsSomeFalse {α : Type} {o : Option α} (h : o.isSome = false) :
    o = Option.none := by
  cases o with
  | none => rfl
  | some v => simp at h

/-- C1: `detect_requirement_type` always returns a dict whose `type` field is
one of the seven tags choose_exact, choose_minimum, alternative, sequence,
category_based, choose_units, required_all; and when the lowered text matches
none of the detector's choice, alternative, sequence, category or units
patterns, the result is exactly the `required_all` default dict. -/
theorem detect_type_classification (text : String) :
    lookupA "type" (detect_requirement_type text) ∈
      [some (RVal.s "choose_exact"), some (RVal.s "choose_minimum"),
       some (RVal.s "alternative"), some (RVal.s "sequence"),
       some (RVal.s "category_based"), some (RVal.s "choose_units"),
       some (RVal.s "required_all")] ∧
    (matchesAnyPattern (pyLower text) = false →
      detect_requirement_type text =
        [("type", RVal.s "required_all"), ("detected_pattern", RVal.s "default")]) := by
  constructor
  · unfold detect_requirement_type
    cases hc : firstChoice (pyLower text) choice_patterns with
    | some pc =>
      obtain ⟨pat, cap⟩ := pc
      by_cases h : cap.getD 1 > 1 <;> simp [hc, h, lookupA]
    | none =>
      by_cases ha : anyAlternative (pyLower text)
      · simp [hc, ha, lookupA]
      · by_cases hs : anySequence (pyLower text)
        · simp [hc, ha, hs, lookupA]
        · cases hcat : firstCategory (pyLower text) category_patterns with
          | some pat => simp [hc, ha, hs, hcat, lookupA]
          | none =>
            cases hu : firstUnits (pyLower text) units_patterns with
            | some u => simp [hc, ha, hs, hcat, hu, lookupA]
            | none => simp [hc, ha, hs, hcat, hu, lookupA]
  · intro h
    unfold matchesAnyPattern at h
    have h5 := (Bool.or_eq_false_iff.mp h).2
    have h4 := (Bool.or_eq_false_iff.mp (Bool.or_eq_false_iff.mp h).1).2
    have h3 := (Bool.or_eq_false_iff.mp
      (Bool.or_eq_false_iff.mp (Bool.or_eq_false_iff.mp h).1).1).2
    have h2 := (Bool.or_eq_false_iff.mp (Bool.or_eq_false_iff.mp
      (Bool.or_eq_false_iff.mp (Bool.or_eq_false_iff.mp h).1).1).1).2
    have h1 := (Bool.or_eq_false_iff.mp (Bool.or_eq_false_iff.mp
      (Bool.or_eq_false_iff.mp (Bool.or_eq_false_iff.mp h).1).1).1).1
    unfold detect_requirement_type
    simp [optNoneOfIsSomeFalse h1, h2, h3,
      optNoneOfIsSomeFalse h4, optNoneOfIsSomeFalse h5]

/-- Witness for `detect_type_classification`: text matching no pattern is
classified `required_all`. -/
theorem detect_type_classification_witness :
    detect_requirement_type "zzz" =
      [("type", RVal.s "required_all"), ("detected_pattern", RVal.s "default")] :=
  (detect_type_classification "zzz").2 (by decide)

/-- C2: classification is first-match-wins over the group order choice,
alternative, sequence, category, units: a choice match yields choose_exact or
choose_minimum regardless of the other groups; with no choice match an
alternative match yields `alternative`; then sequence, category_based and
choose_units in that order, each only when every earlier group failed. -/
theorem detect_first_match_wins (text : String) :
    ((firstChoice (pyLower text) choice_patterns).isSome = true →
      lookupA "type" (detect_requirement_type text) = some (RVal.s "choose_exact") ∨
      lookupA "type" (detect_requirement_type text) = some (RVal.s "choose_minimum")) ∧
    (firstChoice (pyLower text) choice_patterns = Option.none →
      anyAlternative (pyLower text) = true →
      lookupA "type" (detect_requirement_type text) = some (RVal.s "alternative")) ∧
    (firstChoice (pyLower text) choice_patterns = Option.none →
      anyAlternative (pyLower text) = false →
      anySequence (pyLower text) = true →
      lookupA "type" (detect_requirement_type text) = some (RVal.s "sequence")) ∧
    (firstChoice (pyLower text) choice_patterns = Option.none →
      anyAlternative (pyLower text) = false →
      anySequence (pyLower text) = false →
      (firstCategory (pyLower text) category_patterns).isSome = true →
      lookupA "type" (detect_requirement_type text) = some (RVal.s "category_based")) ∧
    (firstChoice (pyLower text) choice_patterns = Option.none →
      anyAlternative (pyLower text) = false →
      anySequence (pyLower text) = false →
      firstCategory (pyLower text) category_patterns = Option.none →
      (firstUnits (pyLower text) units_patterns).isSome = true →
      lookupA "type" (detect_requirement_type text) = some (RVal.s "choose_units")) := by
  refine ⟨?_, ?_, ?_, ?_, ?_⟩
  · intro h
    cases hc : firstChoice (pyLower text) choice_patterns with
    | none => rw [hc] at h; simp at h
    | some pc =>
      obtain ⟨pat, cap⟩ := pc
      unfold detect_requirement_type
      by_cases hgt : cap.getD 1 > 1
      · left
        simp [hc, hgt, lookupA]
      · right
        simp [hc, hgt, lookupA]
  · intro hc ha
    unfold detect_requirement_type
    simp [hc, ha, lookupA]
  · intro hc ha hs
    unfold detect_requirement_type
    simp [hc, ha, hs, lookupA]
  · intro hc ha hs hcat
    obtain ⟨pat, hp⟩ := Option.isSome_iff_exists.mp hcat
    unfold detect_requirement_type
    simp [hc, ha, hs, hp, lookupA]
  · intro hc ha hs hcat hu
    obtain ⟨u, hp⟩ := Option.isSome_iff_exists.mp hu
    unfold detect_requirement_type
    simp [hc, ha, hs, hcat, hp, lookupA]

/-- Witness for `detect_first_match_wins`: text matching both a choice and an
alternative pattern is classified by the choice group; text matching the
alternative, sequence and category groups at once is classified by the
alternative group. -/
theorem detect_first_match_wins_witness :
    (lookupA "type" (detect_requirement_type "choose 2 from a or b") =
        some (RVal.s "choose_exact") ∨
     lookupA "type" (detect_requirement_type "choose 2 from a or b") =
        some (RVal.s "choose_minimum")) ∧
    lookupA "type" (detect_requirement_type "a or b in a sequence of electives") =
      some (RVal.s "alternative") :=
  ⟨(detect_first_match_wins "choose 2 from a or b").1 (by decide),
   (detect_first_match_wins "a or b in a sequence of electives").2.1
     (by decide) (by decide)⟩

/-- C3: parameter extraction.  When the first matching choice pattern
captures a digit string with value n, the result carries
courses_required = n and selection_count = n with type choose_exact for
n > 1 and choose_minimum otherwise; when the first matching choice pattern
has no capture group (`one of the following`), the count falls back to 1
with type choose_minimum; and when classification falls through to the units
group, the result is choose_units with units_required the first captured
integer of the first matching units pattern. -/
theorem detect_parameter_extraction (text : String) :
    (∀ pat n, firstChoice (pyLower text) choice_patterns = some (pat, some n) →
      detect_requirement_type text =
        [("type", RVal.s (if n > 1 then "choose_exact" else "choose_minimum")),
         ("courses_required", RVal.n n), ("selection_count", RVal.n n),
         ("detected_pattern", RVal.s pat)]) ∧
    (∀ pat, firstChoice (pyLower text) choice_patterns = some (pat, Option.none) →
      detect_requirement_type text =
        [("type", RVal.s "choose_minimum"), ("courses_required", RVal.n 1),
         ("selection_count", RVal.n 1), ("detected_pattern", RVal.s pat)]) ∧
    (∀ u, firstChoice (pyLower text) choice_patterns = Option.none →
      anyAlternative (pyLower text) = false → anySequence (pyLower text) = false →
      firstCategory (pyLower text) category_patterns = Option.none →
      firstUnits (pyLower text) units_patterns = some u →
      detect_requirement_type text =
        [("type", RVal.s "choose_units"), ("units_required", RVal.n u),
         ("detected_pattern", RVal.s "units")]) := by
  refine ⟨?_, ?_, ?_⟩
  · intro pat n hc
    unfold detect_requirement_type
    simp [hc]
  · intro pat hc
    unfold detect_requirement_type
    simp [hc]
  · intro u hc ha hs hcat hu
    unfold detect_requirement_type
    simp [hc, ha, hs, hcat, hu]

/-- Witness for `detect_parameter_extraction`: all three clauses at concrete
inputs — a captured 3, the capture-free `one of the following`, and a units
fall-through capturing 12. -/
theorem detect_parameter_extraction_witness :
    detect_requirement_type "choose 3 from the list" =
      [("type", RVal.s "choose_exact"), ("courses_required", RVal.n 3),
       ("selection_count", RVal.n 3),
       ("detected_pattern", RVal.s "choose\\s+(\\d+)\\s+(?:from|of)")] ∧
    detect_requirement_type "one of the following" =
      [("type", RVal.s "choose_minimum"), ("courses_required", RVal.n 1),
       ("selection_count", RVal.n 1),
       ("detected_pattern", RVal.s "one\\s+of\\s+the\\s+following")] ∧
    detect_requirement_type "minimum of 12 units" =
      [("type", RVal.s "choose_units"), ("units_required", RVal.n 12),
       ("detected_pattern", RVal.s "units")] :=
  ⟨(detect_parameter_extraction "choose 3 from the list").1 _ 3 (by decide),
   (detect_parameter_extraction "one of the following").2.1 _ (by decide),
   (detect_parameter_extraction "minimum of 12 units").2.2 12
     (by decide) (by decide) (by decide) (by decide) (by decide)⟩
